import Mathlib

set_option linter.unusedVariables false

/-!
Verification of the feature-extraction-and-inference core of the
Nexalar ML service (FastAPI routers `persona.py` and `insight.py`).

Python floats are modelled exactly: finite values as rationals (every
IEEE-754 double is a dyadic rational), plus the non-finite values
`inf`, `-inf`, `nan`.  Python runtime values appearing in request
dictionaries and model outputs are modelled by the inductive `PyVal`;
request dictionaries are association lists with first-binding lookup.
Fallible operations return `Except`/`Option`.
-/

namespace Nexalar

/-- A Python float value: a finite (dyadic) rational or one of the
non-finite IEEE values. -/
inductive PFloat where
  | finite (q : ℚ)
  | inf
  | neginf
  | nan
deriving DecidableEq, Repr

/-- Whether a modelled float is finite. -/
def PFloat.isFinite : PFloat → Bool
  | .finite _ => true
  | _ => false

/-- A Python runtime value as it can appear in a request feature
dictionary or as an element of a model's prediction output:
integers, floats, booleans, strings, and None. -/
inductive PyVal where
  | int (n : ℤ)
  | float (x : PFloat)
  | bool (b : Bool)
  | str (s : String)
  | none
deriving DecidableEq, Repr

/-- `type(value).__name__` for the modelled values. -/
def typeName : PyVal → String
  | .int _ => "int"
  | .float _ => "float"
  | .bool _ => "bool"
  | .str _ => "str"
  | .none => "NoneType"

/-- ASCII whitespace stripped by Python `float(str)`. -/
def isPySpace (c : Char) : Bool :=
  c == ' ' || c == '\t' || c == '\n' || c == '\r' || c == '\x0b' || c == '\x0c'

/-- Split a leading run of decimal digits off a character list. -/
def takeDigits : List Char → List Char × List Char
  | [] => ([], [])
  | c :: cs =>
    if c.isDigit then
      let p := takeDigits cs
      (c :: p.1, p.2)
    else ([], c :: cs)

/-- Value of a digit run, most significant first, with accumulator. -/
def digitsVal : ℕ → List Char → ℕ
  | acc, [] => acc
  | acc, c :: cs => digitsVal (acc * 10 + (c.toNat - 48)) cs

/-- Parse an unsigned decimal literal `digits [. digits] [e [sign] digits]`
(at least one mantissa digit required, the whole input must be consumed),
as accepted by Python `float()` after sign and whitespace handling. -/
def parseDecimal (cs : List Char) : Option ℚ :=
  let p1 := takeDigits cs
  let p2 := match p1.2 with
    | '.' :: rest => takeDigits rest
    | r => (([] : List Char), r)
  if p1.1 = [] ∧ p2.1 = [] then Option.none
  else
    let mant : ℚ := (digitsVal 0 p1.1 : ℚ) + (digitsVal 0 p2.1 : ℚ) / ((10 : ℚ) ^ p2.1.length)
    match p2.2 with
    | [] => some mant
    | 'e' :: rest =>
      let ps : ℤ × List Char := match rest with
        | '+' :: t => (1, t)
        | '-' :: t => (-1, t)
        | t => (1, t)
      let p3 := takeDigits ps.2
      if p3.1 = [] ∨ p3.2 ≠ [] then Option.none
      else some (mant * (10 : ℚ) ^ (ps.1 * (digitsVal 0 p3.1 : ℤ)))
    | _ => Option.none

/-- Python `float(str)`: strip surrounding whitespace, case-fold, take an
optional sign, then either `inf`/`infinity`/`nan` or a decimal literal.
`Option.none` models the `ValueError` raised on anything else. -/
def parseFloatStr (s : String) : Option PFloat :=
  let cs := ((s.toList.dropWhile isPySpace).reverse.dropWhile isPySpace).reverse
  let cs := cs.map Char.toLower
  let sb : Bool × List Char := match cs with
    | '+' :: t => (false, t)
    | '-' :: t => (true, t)
    | t => (false, t)
  if sb.2 = ['i', 'n', 'f'] ∨ sb.2 = ['i', 'n', 'f', 'i', 'n', 'i', 't', 'y'] then
    some (if sb.1 then PFloat.neginf else PFloat.inf)
  else if sb.2 = ['n', 'a', 'n'] then some PFloat.nan
  else
    match parseDecimal sb.2 with
    | some q => some (PFloat.finite (if sb.1 then -q else q))
    | Option.none => Option.none

/-- The Python built-in `float(value)` as applied at persona.py line 52:
succeeds on ints, floats, booleans (numeric by subclassing: True ↦ 1.0,
False ↦ 0.0) and float-parsable strings; raises (`Option.none`) on None
and non-numeric strings. -/
def pyFloat : PyVal → Option PFloat
  | .int n => some (.finite (n : ℚ))
  | .float x => some x
  | .bool b => some (.finite (if b then 1 else 0))
  | .str s => parseFloatStr s
  | .none => Option.none

/-- Decimal digits of a fractional part `0 ≤ f < 1`, exact expansion with
fuel (any dyadic rational terminates well within fuel 400). -/
def fracDigitsAux : ℕ → ℚ → List Char
  | 0, _ => []
  | fuel + 1, f =>
    if f = 0 then []
    else
      let f10 := f * 10
      let d := ⌊f10⌋
      Char.ofNat (48 + d.toNat) :: fracDigitsAux fuel (f10 - (d : ℚ))

/-- Rendering of a finite float as Python `str()` renders an exact dyadic
value: sign, integer part, a dot, and the terminating fractional
expansion (at least one digit, so whole values print like `2.0`). -/
def fmtFinite (q : ℚ) : String :=
  let sign := if q < 0 then "-" else ""
  let a := |q|
  let ds := fracDigitsAux 400 (a - (⌊a⌋ : ℚ))
  let frac := if ds = [] then "0" else String.mk ds
  sign ++ toString (⌊a⌋.toNat) ++ "." ++ frac

/-- Python `str(value)` for the modelled values (used by f-string
interpolation in error messages and by the label fallback branch). -/
def pyStr : PyVal → String
  | .int n => toString n
  | .float (.finite q) => fmtFinite q
  | .float .inf => "inf"
  | .float .neginf => "-inf"
  | .float .nan => "nan"
  | .bool b => if b then "True" else "False"
  | .str s => s
  | .none => "None"

/-- A request feature dictionary: string keys to Python values.  Keys are
unique in a Python dict; lookup takes the first binding. -/
abbrev PyDict := List (String × PyVal)

/-- The fixed 18-entry feature schema of persona.py lines 33-40, in
declared order. -/
def feature_order : List String :=
  ["total_activities", "completion_rate", "consistency_ratio",
   "avg_study_duration_min", "total_completions", "avg_session_gap_days",
   "active_days", "total_study_time_hours", "peak_hour",
   "weekend_activity_ratio", "late_night_study_ratio", "morning_study_ratio",
   "focus_score", "streak_days", "quiz_attempt_rate",
   "material_review_rate", "pomodoro_usage_rate", "dominant_time_period"]

/-- Error message raised at persona.py line 46 for an absent feature. -/
def missingMsg (key : String) : String :=
  let k := key
  s!"Missing required feature: '{k}'"

/-- Error message raised at persona.py lines 55-58 when `float(value)`
fails: names the field, the numeric requirement, and the offending
value with its type. -/
def invalidMsg (key : String) (v : PyVal) : String :=
  let k := key
  let tn := typeName v
  let sv := pyStr v
  s!"Feature '{k}' must be numeric. Got {tn}: '{sv}'"

/-- The per-key validation loop of persona.py lines 43-58: walk the
given keys in order; stop with the missing-feature error at the first
absent key, with the invalid-type error at the first non-coercible
value, otherwise collect the coerced floats in order. -/
def extractGo (d : PyDict) : List String → Except String (List PFloat)
  | [] => .ok []
  | key :: rest =>
    match d.lookup key with
    | Option.none => .error (missingMsg key)
    | some v =>
      match pyFloat v with
      | Option.none => .error (invalidMsg key v)
      | some x =>
        match extractGo d rest with
        | .error e => .error e
        | .ok xs => .ok (x :: xs)

/-- `extract_features_array` (persona.py lines 30-65): validate and coerce
the 18 schema fields in declared order, then reshape to a single-row
batch `(1, 18)` (modelled as a one-element list of rows).  The function's
trailing generic re-wrap (`Error processing features`) guards the numpy
array construction, which cannot fail in this model. -/
def extract_features_array (d : PyDict) : Except String (List (List PFloat)) :=
  match extractGo d feature_order with
  | .error e => .error e
  | .ok row => .ok [row]

/-- The fixed index → persona table of persona.py lines 19-24. -/
def PERSONA_LABELS : List (ℤ × String) :=
  [(0, "consistent_learner"), (1, "fast_learner"),
   (2, "new_learner"), (3, "reflective_learner")]

/-- The reverse mapping of persona.py line 27 (each canonical name maps
to itself; used only for membership tests on string predictions). -/
def PERSONA_LABELS_REVERSE : List (String × String) :=
  PERSONA_LABELS.map (fun p => (p.2, p.2))

/-- Label resolution (persona.py lines 106-117).  `isinstance(v, (int,
np.integer))` holds for Python booleans too (bool subclasses int), so a
boolean prediction takes the integer branch with `int(True) = 1`.
A string passes through when it is a key of PERSONA_LABELS_REVERSE,
otherwise becomes `unknown`.  Every other value takes the final branch
`persona = str(predicted_value)`: plain string coercion, returned as-is. -/
def resolvePersonaLabel : PyVal → String
  | .int n => (PERSONA_LABELS.lookup n).getD "unknown"
  | .bool b => (PERSONA_LABELS.lookup (if b then 1 else 0)).getD "unknown"
  | .str s => if (PERSONA_LABELS_REVERSE.lookup s).isSome then s else "unknown"
  | v => pyStr v

/-- Python sequence indexing `ps[i]`: a negative index addresses from the
end; an index out of range raises (modelled as `Option.none`). -/
def pyIndex (ps : List ℚ) (i : ℤ) : Option ℚ :=
  let j := if i < 0 then i + (ps.length : ℤ) else i
  if 0 ≤ j then ps.get? j.toNat else Option.none

/-- `np.max` over the single sample's distribution; raises on an empty
array (modelled as `Option.none`). -/
def npMax : List ℚ → Option ℚ
  | [] => Option.none
  | x :: xs => some (xs.foldl max x)

/-- Confidence derivation (persona.py lines 119-133).  `probaRow` is
`probabilities[0]` when the `predict_proba` call succeeded and produced a
first row; `Option.none` models the capability being absent or raising.
Inside the try block, an integer (or boolean, by subclassing) prediction
indexes the distribution — an out-of-range index raises and falls to the
bare `except`, as does `np.max` of an empty row — and any exception
there yields the default confidence 1.0. -/
def computeConfidence (predicted : PyVal) (probaRow : Option (List ℚ)) : ℚ :=
  match probaRow with
  | Option.none => 1
  | some ps =>
    match predicted with
    | .int n => (pyIndex ps n).getD 1
    | .bool b => (pyIndex ps (if b then 1 else 0)).getD 1
    | _ => (npMax ps).getD 1

/-- Round half to even on a rational: the rounding mode of Python's
built-in `round` (applied here to the exact value). -/
def pyRoundInt (q : ℚ) : ℤ :=
  let f := ⌊q⌋
  let r := q - (f : ℚ)
  if r < 1 / 2 then f
  else if 1 / 2 < r then f + 1
  else if f % 2 = 0 then f else f + 1

/-- Python `round(q, ndigits)` on the exact value. -/
def pyRound (q : ℚ) (ndigits : ℕ) : ℚ :=
  (pyRoundInt (q * (10 : ℚ) ^ ndigits) : ℚ) / (10 : ℚ) ^ ndigits

/-- Result of a route handler: a successful response body, or an
`HTTPException` with a status code and detail string. -/
inductive RouteResult (α : Type) where
  | ok (value : α)
  | httpError (code : ℕ) (detail : String)
deriving DecidableEq, Repr

/-- The persona response body (persona.py lines 137-142); the wall-clock
`predicted_at` timestamp is outside the model. -/
structure PersonaResponse where
  persona : String
  confidence : ℚ
  model_version : String
deriving DecidableEq, Repr

/-- The `predict_persona` route (persona.py lines 69-151) as a function
of the request dictionary and the outcomes of its external collaborators:
`modelLoaded` / `scalerLoaded` say whether the two registry lookups
returned an object (line 82's truthiness test); `rawPrediction` is
`prediction[0]`, the first element of the successful `model.predict`
output; `probaRow` is `probabilities[0]` when `predict_proba` succeeded,
`Option.none` when it is unsupported or raised.  The second component of
the result records which external model calls the handler performed, in
order. -/
def predict_persona (modelLoaded scalerLoaded : Bool) (features : PyDict)
    (rawPrediction : PyVal) (probaRow : Option (List ℚ)) :
    RouteResult PersonaResponse × List String :=
  if !(modelLoaded && scalerLoaded) then
    (.httpError 500 "Model not loaded", [])
  else
    match extract_features_array features with
    | .error e => (.httpError 422 e, [])
    | .ok _ =>
      let persona := resolvePersonaLabel rawPrediction
      let confidence := computeConfidence rawPrediction probaRow
      (.ok { persona := persona, confidence := pyRound confidence 4,
             model_version := "1.0.0" },
       ["transform", "predict", "predict_proba"])

/-- The metrics counters read by `generate_extended_message` via
`metrics.get(key, 0)`: the record carries the values with the get-default
0 already applied for absent keys.  The study-time counter is a float,
the other three are integer counts. -/
structure Metrics where
  study_time : ℚ
  pomodoro : ℕ
  quizzes : ℕ
  modules : ℕ
deriving DecidableEq, Repr

/-- The dictionary produced by the insight generator's `generate` call
(spec'd scoring capability): engagement score, performance level,
recommendations and a metrics breakdown. -/
structure Insights where
  engagement_score : ℚ
  performance_level : String
  recommendations : List String
  metrics : Metrics
deriving DecidableEq, Repr

/-- Python `f"{q:.1f}"`: fixed-point with one decimal digit, rounding
half to even on the exact value. -/
def fmtFixed1 (q : ℚ) : String :=
  let n := pyRoundInt (q * 10)
  let sign := if n < 0 then "-" else ""
  let m := n.natAbs
  sign ++ toString (m / 10) ++ "." ++ toString (m % 10)

/-- The persona_insights table of insight.py lines 30-35. -/
def persona_insights : List (String × String) :=
  [("fast_learner", "As a Fast Learner, you thrive on quick absorption of new concepts and enjoy tackling challenges head-on."),
   ("consistent_learner", "As a Consistent Learner, your steady and disciplined approach helps you build strong foundations over time."),
   ("reflective_learner", "As a Reflective Learner, you excel at deep thinking and connecting ideas in meaningful ways."),
   ("new_learner", "As a New Learner, you're just beginning your journey and every step forward is a valuable achievement.")]

/-- The tips table of insight.py lines 77-97, keyed by
(persona_key, performance_level). -/
def tips : List ((String × String) × String) :=
  [(("fast_learner", "excellent"), "Keep pushing your limits by exploring advanced topics or setting stretch goals for next week!"),
   (("fast_learner", "good"), "Consider challenging yourself with more complex materials to maintain your momentum."),
   (("fast_learner", "average"), "Try breaking larger goals into smaller sprints to reignite your fast-paced learning style."),
   (("fast_learner", "needs_improvement"), "Start with quick wins — short, focused sessions can help you regain your learning rhythm."),
   (("consistent_learner", "excellent"), "Your consistency is paying off — consider mentoring others or tackling a passion project!"),
   (("consistent_learner", "good"), "Maintain your steady pace and perhaps add one new learning technique to your routine."),
   (("consistent_learner", "average"), "Try scheduling your study sessions at the same time each day to strengthen your habits."),
   (("consistent_learner", "needs_improvement"), "Focus on rebuilding your routine — even 15 minutes daily can restart your consistent progress."),
   (("reflective_learner", "excellent"), "Your deep understanding is impressive — share your insights through notes or discussions to solidify learning!"),
   (("reflective_learner", "good"), "Take time to review and connect this week's concepts with what you've learned before."),
   (("reflective_learner", "average"), "Try journaling about what you learn — it aligns perfectly with your reflective nature."),
   (("reflective_learner", "needs_improvement"), "Start with revisiting previous materials — your strength lies in making deep connections."),
   (("new_learner", "excellent"), "Amazing start! You're building great habits — keep exploring and stay curious!"),
   (("new_learner", "good"), "You're making wonderful progress as a beginner — celebrate these early wins!"),
   (("new_learner", "average"), "Every expert was once a beginner — keep experimenting to find what works best for you."),
   (("new_learner", "needs_improvement"), "Take it one step at a time — focus on understanding rather than speed, and you'll get there.")]

/-- The progress-part list builder of insight.py lines 47-55, in order:
study time, pomodoro sessions, quizzes, modules, each included only when
strictly positive, with Python's inline pluralization. -/
def progressParts (study_time : ℚ) (pomodoro quizzes modules : ℕ) : List String :=
  (if 0 < study_time then
     let st := fmtFixed1 study_time
     [s!"logged {st} hours of study time"]
   else []) ++
  (if 0 < pomodoro then
     let ps := if 1 < pomodoro then "s" else ""
     [s!"completed {pomodoro} Pomodoro session{ps}"]
   else []) ++
  (if 0 < quizzes then
     let qs := if 1 < quizzes then "zes" else ""
     [s!"finished {quizzes} quiz{qs}"]
   else []) ++
  (if 0 < modules then
     let ms := if 1 < modules then "s" else ""
     [s!"progressed through {modules} module{ms}"]
   else [])

/-- `', '.join` over a list of strings. -/
def joinComma : List String → String
  | [] => ""
  | [p] => p
  | p :: rest => p ++ ", " ++ joinComma rest

/-- The part joiner of insight.py lines 58-63: one part alone, two parts
with `and`, three or more with an Oxford comma. -/
def joinParts (parts : List String) : String :=
  match parts with
  | [] => ""
  | [p] => p
  | [p, q] => p ++ " and " ++ q
  | ps => joinComma ps.dropLast ++ ", and " ++ (ps.getLast?.getD "")

/-- `generate_extended_message` (insight.py lines 20-105): three
sentences — persona insight, progress feedback, personalized tip —
joined by single spaces.  `metrics` is the optional metrics mapping
(`Option.none` models a falsy argument: `None` or an empty dict, whose
`get` defaults coincide with the all-zero record).  The
`engagement_score` parameter is accepted, as in the source, but unused. -/
def generate_extended_message (persona : String) (performance_level : String)
    (metrics : Option Metrics) (engagement_score : ℚ) : String :=
  let persona_key :=
    if persona = "" then "new_learner"
    else String.replace persona.toLower (" ") ("_")
  let sentence_1 := (persona_insights.lookup persona_key).getD
    "Your unique learning style is shaping your educational journey in interesting ways."
  let study_time := match metrics with | some m => m.study_time | Option.none => 0
  let pomodoro := match metrics with | some m => m.pomodoro | Option.none => 0
  let quizzes := match metrics with | some m => m.quizzes | Option.none => 0
  let modules := match metrics with | some m => m.modules | Option.none => 0
  let parts := progressParts study_time pomodoro quizzes modules
  let sentence_2 :=
    if parts ≠ [] then
      let pd := joinParts parts
      if performance_level = "excellent" then
        s!"This week you've {pd} — an outstanding achievement that puts you ahead of the curve!"
      else if performance_level = "good" then
        s!"This week you've {pd}, showing solid commitment to your learning goals."
      else if performance_level = "average" then
        s!"This week you've {pd}, which is a good foundation to build upon."
      else
        s!"This week you've {pd} — every bit of progress counts toward your success."
    else "This week is a fresh start — begin with small steps and watch your progress grow."
  let sentence_3 := (tips.lookup (persona_key, performance_level)).getD
    "Keep up the effort and stay committed to your learning journey!"
  sentence_1 ++ " " ++ sentence_2 ++ " " ++ sentence_3

/-- The summary templates of insight.py lines 173-179, selected by
performance level with a generic fallback, the score formatted `:.1f`. -/
def mkSummary (level : String) (score : ℚ) : String :=
  let sc := fmtFixed1 score
  if level = "excellent" then
    s!"Outstanding performance this week! Your engagement score of {sc}/100 shows exceptional dedication."
  else if level = "good" then
    s!"Great work this week! Your engagement score of {sc}/100 demonstrates solid progress."
  else if level = "average" then
    s!"You're making progress with an engagement score of {sc}/100. Let's aim higher next week!"
  else if level = "needs_improvement" then
    s!"Your engagement score of {sc}/100 shows room for improvement. Let's build better habits together!"
  else s!"Your weekly engagement score: {sc}/100"

/-- The insight response body (insight.py lines 191-200). -/
structure InsightResponse where
  engagement_score : ℚ
  performance_level : String
  improvement_rate : ℚ
  recommendations : List String
  summary : String
  extended_message : String
  metrics : Metrics
  persona : String
deriving DecidableEq, Repr

/-- The `generate_weekly_insights` route (insight.py lines 118-207).
`gen?` is the registry lookup for `insight_generator`; when present its
`generate` callable is a function that may raise (`Except.error` carries
`str(e)`).  The route performs no `None` check: a `None` generator makes
the attribute access `generator.generate` raise `AttributeError`, which
the broad `except` at line 202 wraps into the generic 500 detail.  The
previous-week comparison (lines 154-167) runs only when
`previous_week_data` is truthy (present and non-empty); the same registry
entry is consulted for the previous period, and any failure inside that
block only leaves `improvement_rate` at 0. -/
def generate_weekly_insights
    (gen? : Option (PyDict → String → Except String Insights))
    (weekly_data : PyDict) (previous_week_data : Option PyDict)
    (persona : String) : RouteResult InsightResponse :=
  match gen? with
  | Option.none =>
    .httpError 500 "Insight generation failed: 'NoneType' object has no attribute 'generate'"
  | some gen =>
    match gen weekly_data persona with
    | .error e => .httpError 500 ("Insight generation failed: " ++ e)
    | .ok insights =>
      let improvement_rate : ℚ :=
        match previous_week_data with
        | Option.none => 0
        | some prev =>
          if prev = [] then 0
          else
            match gen prev persona with
            | .error _ => 0
            | .ok prev_insights =>
              if 0 < prev_insights.engagement_score then
                ((insights.engagement_score - prev_insights.engagement_score) /
                  prev_insights.engagement_score) * 100
              else 0
      let level := insights.performance_level
      let score := insights.engagement_score
      .ok { engagement_score := insights.engagement_score,
            performance_level := insights.performance_level,
            improvement_rate := pyRound improvement_rate 2,
            recommendations := insights.recommendations,
            summary := mkSummary level score,
            extended_message :=
              generate_extended_message persona level (some insights.metrics) score,
            metrics := insights.metrics,
            persona := persona }

/-- A dictionary entry that passes validation for a key: present and
float-coercible. -/
def goodKey (d : PyDict) (k : String) : Prop :=
  ∃ v x, d.lookup k = some v ∧ pyFloat v = some x

/-- A dictionary whose keys all carry the same value resolves any listed
key to that value. -/
theorem lookup_map_const (c : PyVal) (ks : List String) (k : String) (hk : k ∈ ks) :
    (ks.map (fun key => (key, c))).lookup k = some c := by
  induction ks with
  | nil => cases hk
  | cons y ys ih =>
    by_cases h : k = y
    · simp [List.lookup, h]
    · have hb : (k == y) = false := beq_eq_false_iff_ne.mpr h
      rcases List.mem_cons.mp hk with h' | h'
      · exact absurd h' h
      · simpa [List.lookup, hb] using ih h'

/-- The validation scan succeeds when every listed key is present with a
coercible value, and collects the coerced floats in order. -/
theorem extractGo_ok (d : PyDict) (f : String → PFloat) :
    ∀ ks : List String,
      (∀ k ∈ ks, ∃ v, d.lookup k = some v ∧ pyFloat v = some (f k)) →
      extractGo d ks = .ok (ks.map f) := by
  intro ks
  induction ks with
  | nil => intro _; rfl
  | cons key rest ih =>
    intro h
    obtain ⟨v, hv, hf⟩ := h key (List.mem_cons_self key rest)
    have hrest := ih (fun k hk => h k (List.mem_cons_of_mem key hk))
    simp [extractGo, hv, hf, hrest]

/-- The validation scan only consults the dictionary at the listed keys:
dictionaries agreeing there produce the same outcome. -/
theorem extractGo_congr (d d' : PyDict) :
    ∀ ks : List String, (∀ k ∈ ks, d'.lookup k = d.lookup k) →
      extractGo d' ks = extractGo d ks := by
  intro ks
  induction ks with
  | nil => intro _; rfl
  | cons key rest ih =>
    intro h
    have hk := h key (List.mem_cons_self key rest)
    have hrest := ih (fun k hk' => h k (List.mem_cons_of_mem key hk'))
    simp only [extractGo, hk, hrest]

/-- The scan stops with the missing-feature error at the first absent
key, keys before it all validating. -/
theorem extractGo_error_missing (d : PyDict) (k : String) (ks₂ : List String)
    (hmiss : d.lookup k = Option.none) :
    ∀ ks₁ : List String, (∀ k' ∈ ks₁, goodKey d k') →
      extractGo d (ks₁ ++ k :: ks₂) = .error (missingMsg k) := by
  intro ks₁
  induction ks₁ with
  | nil =>
    intro _
    simp [extractGo, hmiss]
  | cons key rest ih =>
    intro h
    obtain ⟨v, x, hv, hf⟩ := h key (List.mem_cons_self key rest)
    have hrest := ih (fun k' hk' => h k' (List.mem_cons_of_mem key hk'))
    simp [extractGo, hv, hf, hrest]

/-- The scan stops with the invalid-type error at the first key whose
value float-coercion rejects, keys before it all validating. -/
theorem extractGo_error_invalid (d : PyDict) (k : String) (ks₂ : List String)
    (v : PyVal) (hv : d.lookup k = some v) (hbad : pyFloat v = Option.none) :
    ∀ ks₁ : List String, (∀ k' ∈ ks₁, goodKey d k') →
      extractGo d (ks₁ ++ k :: ks₂) = .error (invalidMsg k v) := by
  intro ks₁
  induction ks₁ with
  | nil =>
    intro _
    simp [extractGo, hv, hbad]
  | cons key rest ih =>
    intro h
    obtain ⟨v', x, hv', hf'⟩ := h key (List.mem_cons_self key rest)
    have hrest := ih (fun k' hk' => h k' (List.mem_cons_of_mem key hk'))
    simp [extractGo, hv', hf', hrest]

/-- The seed of a left max-fold bounds below the fold. -/
theorem le_foldl_max (xs : List ℚ) : ∀ a : ℚ, a ≤ xs.foldl max a := by
  induction xs with
  | nil => intro a; exact le_refl a
  | cons y ys ih =>
    intro a
    exact le_trans (le_max_left a y) (ih (max a y))

/-- Every element of the list bounds below a left max-fold over it. -/
theorem mem_le_foldl_max (xs : List ℚ) : ∀ (a x : ℚ), x ∈ xs → x ≤ xs.foldl max a := by
  induction xs with
  | nil => intro a x h; cases h
  | cons y ys ih =>
    intro a x h
    rcases List.mem_cons.mp h with rfl | h'
    · exact le_trans (le_max_right a x) (le_foldl_max ys (max a x))
    · exact ih (max a y) x h'

/-- A left max-fold yields its seed or a list element. -/
theorem foldl_max_mem (xs : List ℚ) : ∀ a : ℚ, xs.foldl max a = a ∨ xs.foldl max a ∈ xs := by
  induction xs with
  | nil => intro a; exact Or.inl rfl
  | cons y ys ih =>
    intro a
    have step : (y :: ys).foldl max a = ys.foldl max (max a y) := rfl
    rcases ih (max a y) with h | h
    · rcases max_choice a y with he | he
      · left; rw [step, h, he]
      · right; rw [step, h, he]; exact List.mem_cons_self y ys
    · right; rw [step]; exact List.mem_cons_of_mem y h

/-- A fully valid request dictionary: every schema key mapped to the
integer 1. -/
def dGood : PyDict := feature_order.map (fun k => (k, PyVal.int 1))

/-- Validation of `dGood` succeeds with the all-ones row. -/
theorem dGood_extract :
    extract_features_array dGood = .ok [feature_order.map (fun _ => PFloat.finite 1)] := by
  unfold extract_features_array
  rw [extractGo_ok dGood (fun _ => PFloat.finite 1) feature_order ?_]
  intro k hk
  refine ⟨PyVal.int 1, lookup_map_const (PyVal.int 1) feature_order k hk, ?_⟩
  show pyFloat (PyVal.int 1) = some (PFloat.finite 1)
  decide

/-- C2: for every input mapping containing all 18 required features with
float-coercible values, extract_features_array returns the single-row
batch [row] listing the coerced values in exact declared field order,
with row length 18; and the outcome depends only on the lookups at the
18 required keys, so extra/unknown keys are ignored and key insertion
order is irrelevant. -/
theorem C2_extract_shape_and_order (d : PyDict) (f : String → PFloat)
    (h : ∀ k ∈ feature_order, ∃ v, d.lookup k = some v ∧ pyFloat v = some (f k)) :
    extract_features_array d = .ok [feature_order.map f] ∧
    (feature_order.map f).length = 18 ∧
    ∀ d' : PyDict, (∀ k ∈ feature_order, d'.lookup k = d.lookup k) →
      extract_features_array d' = extract_features_array d := by
  refine ⟨?_, ?_, ?_⟩
  · unfold extract_features_array
    rw [extractGo_ok d f feature_order h]
  · simp [feature_order]
  · intro d' hd
    unfold extract_features_array
    rw [extractGo_congr d d' feature_order hd]

/-- As `lookup_map_const`, with further bindings appended after the
constant-valued ones. -/
theorem lookup_map_const_append (c : PyVal) (tail : PyDict) (ks : List String)
    (k : String) (hk : k ∈ ks) :
    ((ks.map (fun key => (key, c))) ++ tail).lookup k = some c := by
  induction ks with
  | nil => cases hk
  | cons y ys ih =>
    by_cases h : k = y
    · simp [List.lookup, h]
    · have hb : (k == y) = false := beq_eq_false_iff_ne.mpr h
      rcases List.mem_cons.mp hk with h' | h'
      · exact absurd h' h
      · simpa [List.lookup, hb] using ih h'

/-- A valid dictionary carrying an unknown extra key after the 18
required ones. -/
def dC2 : PyDict :=
  feature_order.map (fun k => (k, PyVal.int 1)) ++ [("unknown_extra_key", PyVal.str "ignored")]

/-- The same bindings as `dC2` at the required keys, with reversed
insertion order and no extra key. -/
def dC2shuffled : PyDict := feature_order.reverse.map (fun k => (k, PyVal.int 1))

theorem C2_witness :
    extract_features_array dC2 = .ok [feature_order.map (fun _ => PFloat.finite 1)] ∧
    (feature_order.map (fun _ => PFloat.finite 1)).length = 18 ∧
    extract_features_array dC2shuffled = extract_features_array dC2 := by
  have h := C2_extract_shape_and_order dC2 (fun _ => PFloat.finite 1) ?good
  case good =>
    intro k hk
    refine ⟨PyVal.int 1,
      lookup_map_const_append (PyVal.int 1) [("unknown_extra_key", PyVal.str "ignored")]
        feature_order k hk, ?_⟩
    show pyFloat (PyVal.int 1) = some (PFloat.finite 1)
    decide
  refine ⟨h.1, h.2.1, h.2.2 dC2shuffled ?_⟩
  intro k hk
  simp only [dC2shuffled, dC2]
  rw [lookup_map_const (PyVal.int 1) feature_order.reverse k (List.mem_reverse.mpr hk),
    lookup_map_const_append (PyVal.int 1) [("unknown_extra_key", PyVal.str "ignored")]
      feature_order k hk]

/-- C3: the validator walks the schema in declared order and fails at
the first offending field — when absent, with the missing-feature
message naming the field; when present but not float-coercible, with the
invalid-type message naming the field, the numeric requirement, and the
offending value with its type — and predict_persona surfaces either
message verbatim as a 422 client error. -/
theorem C3_first_offender_422 (d : PyDict) (ks₁ ks₂ : List String) (k : String)
    (raw : PyVal) (pr : Option (List ℚ))
    (hsplit : feature_order = ks₁ ++ k :: ks₂)
    (hgood : ∀ k' ∈ ks₁, goodKey d k') :
    (d.lookup k = Option.none →
      extract_features_array d = .error (missingMsg k) ∧
      predict_persona true true d raw pr = (.httpError 422 (missingMsg k), [])) ∧
    (∀ v, d.lookup k = some v → pyFloat v = Option.none →
      extract_features_array d = .error (invalidMsg k v) ∧
      predict_persona true true d raw pr = (.httpError 422 (invalidMsg k v), [])) := by
  constructor
  · intro hmiss
    have he : extract_features_array d = .error (missingMsg k) := by
      unfold extract_features_array
      rw [hsplit, extractGo_error_missing d k ks₂ hmiss ks₁ hgood]
    exact ⟨he, by simp [predict_persona, he]⟩
  · intro v hv hbad
    have he : extract_features_array d = .error (invalidMsg k v) := by
      unfold extract_features_array
      rw [hsplit, extractGo_error_invalid d k ks₂ v hv hbad ks₁ hgood]
    exact ⟨he, by simp [predict_persona, he]⟩

/-- A dictionary whose first two schema fields are valid and whose third
(`consistency_ratio`) is absent. -/
def dC3missing : PyDict :=
  [("total_activities", PyVal.int 5),
   ("completion_rate", PyVal.float (PFloat.finite (4 / 5)))]

/-- A dictionary whose first schema field is valid and whose second
(`completion_rate`) holds the non-numeric string "abc". -/
def dC3invalid : PyDict :=
  [("total_activities", PyVal.int 5), ("completion_rate", PyVal.str "abc")]

theorem C3_witness :
    predict_persona true true dC3missing (PyVal.int 0) Option.none
      = (.httpError 422 "Missing required feature: 'consistency_ratio'", []) ∧
    predict_persona true true dC3invalid (PyVal.int 0) Option.none
      = (.httpError 422 "Feature 'completion_rate' must be numeric. Got str: 'abc'", []) := by
  constructor
  · have h := (C3_first_offender_422 dC3missing
      ["total_activities", "completion_rate"] (feature_order.drop 3)
      "consistency_ratio" (PyVal.int 0) Option.none rfl ?good1).1 rfl
    · exact h.2
    case good1 =>
      intro k' hk'
      fin_cases hk'
      · exact ⟨PyVal.int 5, PFloat.finite 5, by decide, by decide⟩
      · exact ⟨PyVal.float (PFloat.finite (4 / 5)), PFloat.finite (4 / 5),
          by with_unfolding_all decide, by with_unfolding_all decide⟩
  · have h := (C3_first_offender_422 dC3invalid
      ["total_activities"] (feature_order.drop 2)
      "completion_rate" (PyVal.int 0) Option.none rfl ?good2).2
      (PyVal.str "abc") rfl rfl
    · exact h.2
    case good2 =>
      intro k' hk'
      fin_cases hk'
      exact ⟨PyVal.int 5, PFloat.finite 5, by decide, by decide⟩

/-- Round-half-even fixes every integral value. -/
theorem pyRoundInt_intCast (m : ℤ) : pyRoundInt ((m : ℤ) : ℚ) = m := by
  unfold pyRoundInt
  norm_num [Int.floor_intCast]

/-- Rounding an integral value is the identity at any precision. -/
theorem pyRound_intCast (n : ℤ) (d : ℕ) : pyRound (n : ℚ) d = n := by
  unfold pyRound
  have h1 : ((n : ℚ) * (10 : ℚ) ^ d) = ((n * 10 ^ d : ℤ) : ℚ) := by push_cast; ring
  rw [h1, pyRoundInt_intCast]
  push_cast
  rw [mul_div_assoc, div_self (ne_of_gt (by positivity : (0 : ℚ) < (10 : ℚ) ^ d)), mul_one]

/-- C7: an integer prediction is looked up in the fixed 4-entry table
(0 ↦ consistent_learner, 1 ↦ fast_learner, 2 ↦ new_learner,
3 ↦ reflective_learner) with any unmapped index resolving to "unknown";
a string prediction passes through unchanged exactly when it is one of
the four canonical labels and resolves to "unknown" otherwise. -/
theorem C7_label_resolution :
    resolvePersonaLabel (.int 0) = "consistent_learner" ∧
    resolvePersonaLabel (.int 1) = "fast_learner" ∧
    resolvePersonaLabel (.int 2) = "new_learner" ∧
    resolvePersonaLabel (.int 3) = "reflective_learner" ∧
    resolvePersonaLabel (.int 99) = "unknown" ∧
    (∀ n : ℤ, n ≠ 0 → n ≠ 1 → n ≠ 2 → n ≠ 3 →
      resolvePersonaLabel (.int n) = "unknown") ∧
    resolvePersonaLabel (.str "new_learner") = "new_learner" ∧
    resolvePersonaLabel (.str "bogus") = "unknown" ∧
    (∀ s : String,
      resolvePersonaLabel (.str s) =
        if s = "consistent_learner" ∨ s = "fast_learner" ∨ s = "new_learner" ∨
            s = "reflective_learner" then s else "unknown") := by
  refine ⟨rfl, rfl, rfl, rfl, rfl, ?_, rfl, by decide, ?_⟩
  · intro n h0 h1 h2 h3
    have e0 : (n == (0 : ℤ)) = false := beq_eq_false_iff_ne.mpr h0
    have e1 : (n == (1 : ℤ)) = false := beq_eq_false_iff_ne.mpr h1
    have e2 : (n == (2 : ℤ)) = false := beq_eq_false_iff_ne.mpr h2
    have e3 : (n == (3 : ℤ)) = false := beq_eq_false_iff_ne.mpr h3
    simp [resolvePersonaLabel, PERSONA_LABELS, List.lookup, e0, e1, e2, e3]
  · intro s
    by_cases h1 : s = "consistent_learner"
    · subst h1; decide
    by_cases h2 : s = "fast_learner"
    · subst h2; decide
    by_cases h3 : s = "new_learner"
    · subst h3; decide
    by_cases h4 : s = "reflective_learner"
    · subst h4; decide
    have e1 : (s == "consistent_learner") = false := beq_eq_false_iff_ne.mpr h1
    have e2 : (s == "fast_learner") = false := beq_eq_false_iff_ne.mpr h2
    have e3 : (s == "new_learner") = false := beq_eq_false_iff_ne.mpr h3
    have e4 : (s == "reflective_learner") = false := beq_eq_false_iff_ne.mpr h4
    simp [resolvePersonaLabel, PERSONA_LABELS_REVERSE, PERSONA_LABELS, List.lookup,
      e1, e2, e3, e4, h1, h2, h3, h4]

theorem C7_witness :
    (99 : ℤ) ≠ 0 ∧ resolvePersonaLabel (.int 99) = "unknown" ∧
    resolvePersonaLabel (.str "bogus") = "unknown" := by
  obtain ⟨-, -, -, -, -, hgen, -, hbogus, -⟩ := C7_label_resolution
  exact ⟨by decide, hgen 99 (by decide) (by decide) (by decide) (by decide), hbogus⟩

/-- C1 is false as stated: a raw prediction that is neither an integer
nor a string — here the float 2.5 — is coerced with str() and the
resulting string is returned verbatim as the persona ("2.5"), not mapped
to "unknown", although "2.5" matches none of the four canonical labels;
the route returns it as a normal 200 response. -/
theorem C1_counterexample :
    resolvePersonaLabel (.float (.finite (5 / 2))) = "2.5" ∧
    ("2.5" : String) ≠ "unknown" ∧
    ¬ ("2.5" = "consistent_learner" ∨ "2.5" = "fast_learner" ∨ "2.5" = "new_learner" ∨
        "2.5" = "reflective_learner") ∧
    (predict_persona true true dGood (.float (.finite (5 / 2))) Option.none).1
      = .ok { persona := "2.5", confidence := 1, model_version := "1.0.0" } := by
  refine ⟨by with_unfolding_all decide, by decide, by decide, ?_⟩
  with_unfolding_all decide

/-- C1 amended: when the raw prediction is neither an integer (booleans
count as integers by subclassing) nor a string, the value is coerced via
string conversion and that string is returned as the persona verbatim —
canonical or not — and no exception is raised: the route still produces
a normal response carrying it. -/
theorem C1_amended (x : PFloat) (pr : Option (List ℚ)) :
    resolvePersonaLabel (.float x) = pyStr (.float x) ∧
    resolvePersonaLabel PyVal.none = pyStr PyVal.none ∧
    (predict_persona true true dGood (.float x) pr).1
      = .ok { persona := pyStr (.float x),
              confidence := pyRound (computeConfidence (.float x) pr) 4,
              model_version := "1.0.0" } := by
  refine ⟨rfl, rfl, ?_⟩
  simp [predict_persona, dGood_extract, resolvePersonaLabel]

/-- C4: confidence is piecewise: with a probability distribution
available, an in-range integer class index receives the probability at
that index; a string prediction receives the maximum probability of the
distribution (an element of it that dominates every element); an
unsupported or raising predict_proba yields exactly 1.0 and the route
still returns the prediction response (non-fatal). -/
theorem C4_confidence_piecewise :
    (∀ (ps : List ℚ) (n : ℕ) (h : n < ps.length),
      computeConfidence (.int (n : ℤ)) (some ps) = ps.get ⟨n, h⟩) ∧
    (∀ (ps : List ℚ) (s : String), ps ≠ [] →
      computeConfidence (.str s) (some ps) ∈ ps ∧
      ∀ x ∈ ps, x ≤ computeConfidence (.str s) (some ps)) ∧
    (∀ raw : PyVal, computeConfidence raw Option.none = 1) ∧
    (∀ raw : PyVal,
      (predict_persona true true dGood raw Option.none).1
        = .ok { persona := resolvePersonaLabel raw, confidence := 1,
                model_version := "1.0.0" }) := by
  refine ⟨?_, ?_, ?_, ?_⟩
  · intro ps n h
    show (pyIndex ps (n : ℤ)).getD 1 = ps.get ⟨n, h⟩
    unfold pyIndex
    have h0 : ¬((n : ℤ) < 0) := not_lt.mpr (Int.natCast_nonneg n)
    simp only [if_neg h0, if_pos (Int.natCast_nonneg n), Int.toNat_natCast]
    rw [List.get?_eq_get h]
    rfl
  · intro ps s hne
    cases ps with
    | nil => exact absurd rfl hne
    | cons y ys =>
      have hval : computeConfidence (.str s) (some (y :: ys)) = ys.foldl max y := rfl
      constructor
      · rw [hval]
        rcases foldl_max_mem ys y with h | h
        · rw [h]; exact List.mem_cons_self y ys
        · exact List.mem_cons_of_mem y h
      · intro x hx
        rw [hval]
        rcases List.mem_cons.mp hx with rfl | hx'
        · exact le_foldl_max ys x
        · exact mem_le_foldl_max ys y x hx'
  · intro raw; rfl
  · intro raw
    have hc : pyRound (computeConfidence raw Option.none) 4 = 1 := by
      show pyRound (1 : ℚ) 4 = 1
      simpa using pyRound_intCast 1 4
    simp [predict_persona, dGood_extract, hc]

theorem C4_witness :
    (0 : ℕ) < ([9 / 10, 1 / 20, 3 / 100, 1 / 50] : List ℚ).length ∧
    computeConfidence (.int ((0 : ℕ) : ℤ)) (some [9 / 10, 1 / 20, 3 / 100, 1 / 50]) = 9 / 10 ∧
    ([1 / 20, 9 / 10, 3 / 100] : List ℚ) ≠ [] ∧
    computeConfidence (.str "fast_learner") (some [1 / 20, 9 / 10, 3 / 100])
      ∈ ([1 / 20, 9 / 10, 3 / 100] : List ℚ) ∧
    computeConfidence (.int 2) Option.none = 1 := by
  obtain ⟨h1, h2, h3, -⟩ := C4_confidence_piecewise
  refine ⟨by decide, ?_, by simp, ?_, h3 (.int 2)⟩
  · simpa using h1 [9 / 10, 1 / 20, 3 / 100, 1 / 50] 0 (by decide)
  · exact (h2 [1 / 20, 9 / 10, 3 / 100] "fast_learner" (by simp)).1

/-- Current-week data fixture for the insight-route theorems. -/
def wIns : PyDict := [("total_study_time_hours", PyVal.int 10)]

/-- Previous-week data fixture for the insight-route theorems. -/
def pwIns : PyDict := [("total_study_time_hours", PyVal.int 4)]

/-- An all-zero metrics breakdown fixture. -/
def mIns : Metrics := { study_time := 0, pomodoro := 0, quizzes := 0, modules := 0 }

/-- C5: with previous-period data supplied and both scoring calls
succeeding, a strictly positive previous engagement score yields
improvement_rate = ((current - previous) / previous) * 100 rounded to 2
decimal places, and a zero previous score yields improvement_rate 0,
the rest of the response being the current-period insight either way. -/
theorem C5_improvement_rate
    (gen : PyDict → String → Except String Insights)
    (w pw : PyDict) (p : String) (ins pins : Insights)
    (hw : gen w p = .ok ins) (hp : gen pw p = .ok pins) (hne : pw ≠ []) :
    (0 < pins.engagement_score →
      generate_weekly_insights (some gen) w (some pw) p
        = .ok { engagement_score := ins.engagement_score,
                performance_level := ins.performance_level,
                improvement_rate :=
                  pyRound (((ins.engagement_score - pins.engagement_score) /
                    pins.engagement_score) * 100) 2,
                recommendations := ins.recommendations,
                summary := mkSummary ins.performance_level ins.engagement_score,
                extended_message := generate_extended_message p ins.performance_level
                  (some ins.metrics) ins.engagement_score,
                metrics := ins.metrics,
                persona := p }) ∧
    (pins.engagement_score = 0 →
      generate_weekly_insights (some gen) w (some pw) p
        = .ok { engagement_score := ins.engagement_score,
                performance_level := ins.performance_level,
                improvement_rate := 0,
                recommendations := ins.recommendations,
                summary := mkSummary ins.performance_level ins.engagement_score,
                extended_message := generate_extended_message p ins.performance_level
                  (some ins.metrics) ins.engagement_score,
                metrics := ins.metrics,
                persona := p }) := by
  have h0 : pyRound (0 : ℚ) 2 = 0 := by simpa using pyRound_intCast 0 2
  constructor
  · intro hpos
    simp [generate_weekly_insights, hw, hp, hne, hpos]
  · intro hzero
    have hnpos : ¬ (0 < pins.engagement_score) := by rw [hzero]; exact lt_irrefl 0
    simp [generate_weekly_insights, hw, hp, hne, hnpos, h0]

/-- A scoring stub: engagement 75 / level good on the current week,
engagement 50 / level average on anything else. -/
def genC5 : PyDict → String → Except String Insights := fun d _ =>
  if d = wIns then
    .ok { engagement_score := 75, performance_level := "good",
          recommendations := [], metrics := mIns }
  else
    .ok { engagement_score := 50, performance_level := "average",
          recommendations := [], metrics := mIns }

/-- A scoring stub whose previous-period engagement score is zero. -/
def genC5zero : PyDict → String → Except String Insights := fun d _ =>
  if d = wIns then
    .ok { engagement_score := 80, performance_level := "good",
          recommendations := [], metrics := mIns }
  else
    .ok { engagement_score := 0, performance_level := "needs_improvement",
          recommendations := [], metrics := mIns }

theorem C5_witness :
    (∃ resp : InsightResponse,
      generate_weekly_insights (some genC5) wIns (some pwIns) "u" = .ok resp ∧
      resp.improvement_rate = 50) ∧
    (∃ resp : InsightResponse,
      generate_weekly_insights (some genC5zero) wIns (some pwIns) "u" = .ok resp ∧
      resp.improvement_rate = 0) := by
  constructor
  · have h := (C5_improvement_rate genC5 wIns pwIns "u"
      { engagement_score := 75, performance_level := "good",
        recommendations := [], metrics := mIns }
      { engagement_score := 50, performance_level := "average",
        recommendations := [], metrics := mIns }
      rfl rfl (by decide)).1 (by norm_num)
    refine ⟨_, h, ?_⟩
    show pyRound (((75 : ℚ) - 50) / 50 * 100) 2 = 50
    with_unfolding_all decide
  · have h := (C5_improvement_rate genC5zero wIns pwIns "u"
      { engagement_score := 80, performance_level := "good",
        recommendations := [], metrics := mIns }
      { engagement_score := 0, performance_level := "needs_improvement",
        recommendations := [], metrics := mIns }
      rfl rfl (by decide)).2 rfl
    exact ⟨_, h, rfl⟩

/-- C6 is false as stated for the insight route: with the registry
returning None for the insight generator, the request does not fail with
the model-unavailable precondition error that the spec's policy (and the
persona route's explicit check, detail "Model not loaded") prescribes
before the generate call; instead the None flows to the
generator.generate attribute access, whose AttributeError the route's
broad except wraps into the generic generation-failure 500 detail. -/
theorem C6_counterexample :
    generate_weekly_insights Option.none wIns Option.none "fast_learner"
      = .httpError 500
          "Insight generation failed: 'NoneType' object has no attribute 'generate'" ∧
    ("Insight generation failed: 'NoneType' object has no attribute 'generate'"
      ≠ "Model not loaded") := ⟨rfl, by decide⟩

/-- C6 amended: the persona route checks its two registry lookups and,
when either is None, fails with the 500 "Model not loaded" precondition
error before any transform/predict/predict_proba call (its external-call
trace is empty); the insight route performs no such check and a None
generator surfaces as the generic wrapped 500 generation-failure error;
in both routes the registry is consulted once per model and the failure
is not retried within the request. -/
theorem C6_amended (d : PyDict) (raw : PyVal) (pr : Option (List ℚ))
    (ml sl : Bool) (w : PyDict) (prev : Option PyDict) (p : String)
    (h : ml = false ∨ sl = false) :
    predict_persona ml sl d raw pr = (.httpError 500 "Model not loaded", []) ∧
    generate_weekly_insights Option.none w prev p
      = .httpError 500
          "Insight generation failed: 'NoneType' object has no attribute 'generate'" := by
  refine ⟨?_, rfl⟩
  rcases h with rfl | rfl
  · simp [predict_persona]
  · simp [predict_persona]

theorem C6_witness :
    predict_persona false true dGood (PyVal.int 0) Option.none
      = (.httpError 500 "Model not loaded", []) :=
  (C6_amended dGood (PyVal.int 0) Option.none false true wIns Option.none "u"
    (Or.inl rfl)).1

/-- C8: when the previous-period scoring call fails, the failure is
absorbed locally: the route returns exactly what it returns without
previous data — improvement_rate 0 and the full current-period insight
response (score, level, recommendations, summary, message, metrics). -/
theorem C8_comparison_failure_absorbed
    (gen : PyDict → String → Except String Insights)
    (w pw : PyDict) (p : String) (ins : Insights) (e : String)
    (hw : gen w p = .ok ins) (hp : gen pw p = .error e) :
    generate_weekly_insights (some gen) w (some pw) p
      = generate_weekly_insights (some gen) w Option.none p ∧
    generate_weekly_insights (some gen) w (some pw) p
      = .ok { engagement_score := ins.engagement_score,
              performance_level := ins.performance_level,
              improvement_rate := 0,
              recommendations := ins.recommendations,
              summary := mkSummary ins.performance_level ins.engagement_score,
              extended_message := generate_extended_message p ins.performance_level
                (some ins.metrics) ins.engagement_score,
              metrics := ins.metrics,
              persona := p } := by
  have h0 : pyRound (0 : ℚ) 2 = 0 := by simpa using pyRound_intCast 0 2
  constructor
  · by_cases hpw : pw = [] <;> simp [generate_weekly_insights, hw, hp, hpw]
  · by_cases hpw : pw = [] <;> simp [generate_weekly_insights, hw, hp, hpw, h0]

/-- A scoring stub that succeeds on the current week and raises on
anything else. -/
def genC8 : PyDict → String → Except String Insights := fun d _ =>
  if d = wIns then
    .ok { engagement_score := 80, performance_level := "good",
          recommendations := ["keep going"], metrics := mIns }
  else .error "previous period scoring failed"

theorem C8_witness :
    generate_weekly_insights (some genC8) wIns (some pwIns) "new_learner"
      = generate_weekly_insights (some genC8) wIns Option.none "new_learner" ∧
    ∃ resp : InsightResponse,
      generate_weekly_insights (some genC8) wIns (some pwIns) "new_learner" = .ok resp ∧
      resp.improvement_rate = 0 := by
  have h := C8_comparison_failure_absorbed genC8 wIns pwIns "new_learner"
    { engagement_score := 80, performance_level := "good",
      recommendations := ["keep going"], metrics := mIns }
    "previous period scoring failed" rfl rfl
  exact ⟨h.1, ⟨_, h.2, rfl⟩⟩

/-- C9: the extended-message generator is deterministic — equal
(persona, performance level, metrics, score) inputs produce byte-identical
output — and, being a total function of those four arguments in this
embedding, it touches no state from which a later observation could
differ. -/
theorem C9_extended_message_pure
    (p₁ p₂ lvl₁ lvl₂ : String) (m₁ m₂ : Option Metrics) (s₁ s₂ : ℚ)
    (hp : p₁ = p₂) (hl : lvl₁ = lvl₂) (hm : m₁ = m₂) (hs : s₁ = s₂) :
    (generate_extended_message p₁ lvl₁ m₁ s₁).data
      = (generate_extended_message p₂ lvl₂ m₂ s₂).data := by
  rw [hp, hl, hm, hs]

/-- A metrics fixture with fractional study time. -/
def mC9 : Metrics := { study_time := 5 / 2, pomodoro := 3, quizzes := 1, modules := 0 }

set_option maxRecDepth 4000 in
theorem C9_witness :
    (generate_extended_message "fast_learner" "good" (some mC9) 80).data
      = (generate_extended_message "fast_learner" "good" (some mC9) 80).data ∧
    generate_extended_message "fast_learner" "good" (some mC9) 80
      = "As a Fast Learner, you thrive on quick absorption of new concepts and enjoy tackling challenges head-on. This week you've logged 2.5 hours of study time, completed 3 Pomodoro sessions, and finished 1 quiz, showing solid commitment to your learning goals. Consider challenging yourself with more complex materials to maintain your momentum." := by
  refine ⟨C9_extended_message_pure _ _ _ _ _ _ _ _ rfl rfl rfl rfl, ?_⟩
  with_unfolding_all decide

/-- A request dictionary exercising a boolean and the strings "nan" and
"inf" on the first three schema fields, all other fields integral. -/
def dC10 : PyDict :=
  ("total_activities", PyVal.bool true) ::
  ("completion_rate", PyVal.str "nan") ::
  ("consistency_ratio", PyVal.str "inf") ::
  (feature_order.drop 3).map (fun k => (k, PyVal.int 0))

/-- C10: the builder accepts exactly what float() accepts, which is
broader than integers, floats and numeric strings: every boolean
coerces (True ↦ 1.0, False ↦ 0.0) and the strings "nan" and "inf" are
accepted, flowing into the output vector as non-finite entries instead
of raising a validation error. -/
theorem C10_float_acceptance :
    (∀ b : Bool, pyFloat (.bool b) = some (.finite (if b then 1 else 0))) ∧
    pyFloat (.str "nan") = some PFloat.nan ∧
    pyFloat (.str "inf") = some PFloat.inf ∧
    PFloat.nan.isFinite = false ∧
    PFloat.inf.isFinite = false ∧
    extract_features_array dC10
      = .ok [PFloat.finite 1 :: PFloat.nan :: PFloat.inf ::
          (feature_order.drop 3).map (fun _ => PFloat.finite 0)] := by
  refine ⟨?_, by decide, by decide, rfl, rfl, ?_⟩
  · intro b; rfl
  · with_unfolding_all rfl

end Nexalar
